import Mathlib

/-!
Shallow embedding of the CashFlow_Forecasting pipeline
(`baseline_forecasting.py`, `behavior_intelligence.py`,
`cash_requirement_engine.py`).

Conventions of the embedding:
* A dataframe is a list of records; a `groupby` over a key iterates over the
  sorted distinct keys and filters the rows with that key.
* Dates are integers (day numbers); `dayOfWeek` is the date modulo 7 (the
  pandas weekday convention is a fixed residue map, and nothing below depends
  on which residue is Monday).
* Monetary amounts are rationals; the sample standard deviation, which is a
  square root, lives in `ℝ`, and the undefined/NaN values that pandas produces
  (std of fewer than two points, CV with a zero denominator) are `Option.none`.
* `merge(..., how="left")` with a right table keyed uniquely by `Account_ID`
  (as the grouped metric tables are) is a lookup with `List.find?`, and
  `fillna(0)` is `Option.getD 0`.
-/

namespace CashFlow

/-- One row of the input cashflow ledger: the `Date`, `Account_ID`,
`Inflow_INR`, `Outflow_INR`, `Balance_INR` columns. -/
structure CashflowRecord where
  date : ℤ
  account : ℕ
  inflow : ℚ
  outflow : ℚ
  balance : ℚ
deriving DecidableEq, Repr

/-- A ledger dataframe. -/
abbrev Ledger := List CashflowRecord

/-- The `dt.dayofweek` calendar feature: dates one apart get adjacent
residues mod 7. -/
def dayOfWeek (d : ℤ) : ℤ := d % 7

/-- `Series.mean()` for a rational series (groups below are nonempty, the
empty case is never consumed). -/
def meanQ (l : List ℚ) : ℚ := l.sum / (l.length : ℚ)

/-- Insert into a list keeping it sorted by `le` (stable insertion). -/
def insertBy {α : Type} (le : α → α → Bool) (x : α) : List α → List α
  | [] => [x]
  | y :: ys => if le x y then x :: y :: ys else y :: insertBy le x ys

/-- Insertion sort by `le`, the embedding of `sort_values`. -/
def sortBy {α : Type} (le : α → α → Bool) (l : List α) : List α :=
  l.foldr (insertBy le) []

/-- The distinct `Account_ID` keys of a ledger in ascending order: the
iteration order of `df.groupby("Account_ID")`. -/
def sortedAccounts (df : Ledger) : List ℕ :=
  sortBy (fun a b => decide (a ≤ b)) (df.map (fun r => r.account)).dedup

/-- The group of rows of one account (`groupby` group). -/
def groupOf (df : Ledger) (a : ℕ) : Ledger :=
  df.filter (fun r => r.account == a)

/-- `g.sort_values("Date")`. -/
def sortByDate (g : Ledger) : Ledger :=
  sortBy (fun r s => decide (r.date ≤ s.date)) g

/-- `Series.tail(n)`: the last `n` elements. -/
def tailN {α : Type} (n : ℕ) (l : List α) : List α := l.drop (l.length - n)

/-- One row of the account-level forecast table produced by
`run_baseline_forecasting`. -/
structure ForecastRow where
  date : ℤ
  account : ℕ
  pred_inflow : ℚ
  pred_outflow : ℚ
  model : String
deriving DecidableEq, Repr

/-- One row of the bank-level forecast table. -/
structure BankForecastRow where
  date : ℤ
  pred_inflow : ℚ
  pred_outflow : ℚ
  model : String
deriving DecidableEq, Repr

/-- The day-of-week profile lookup `dow_profile[...].get(dow, fallback)`:
the mean of the selected column over the rows of the group falling on weekday
`d`, or `none` when the group has no row on that weekday. -/
def dowMean (g : Ledger) (sel : CashflowRecord → ℚ) (d : ℤ) : Option ℚ :=
  let s := g.filter (fun r => dayOfWeek r.date == d)
  if s.isEmpty then none else some (meanQ (s.map sel))

/-- The maximum historical date of a (sorted) group, `g["Date"].max()`. -/
def lastDateOf (df : Ledger) (a : ℕ) : ℤ :=
  (((sortByDate (groupOf df a)).map (fun r => r.date)).max?).getD 0

/-- The rolling mean `g[...].tail(rolling_window).mean()` of one account's
(date-sorted) group. -/
def rollMean (df : Ledger) (rolling_window : ℕ) (sel : CashflowRecord → ℚ)
    (a : ℕ) : ℚ :=
  meanQ ((tailN rolling_window (sortByDate (groupOf df a))).map sel)

/-- The forecast row of account `a` for the `i`-th future date: day-of-week
profile with fallback to the rolling mean, blended by `alpha`, clamped
at 0. -/
def forecastRowAt (df : Ledger) (rolling_window : ℕ) (alpha : ℚ) (a : ℕ)
    (i : ℕ) : ForecastRow :=
  let g := sortByDate (groupOf df a)
  let d := lastDateOf df a + 1 + (i : ℤ)
  let dow := dayOfWeek d
  let dow_in :=
    (dowMean g (fun r => r.inflow) dow).getD
      (rollMean df rolling_window (fun r => r.inflow) a)
  let dow_out :=
    (dowMean g (fun r => r.outflow) dow).getD
      (rollMean df rolling_window (fun r => r.outflow) a)
  { date := d
    account := a
    pred_inflow :=
      max (alpha * rollMean df rolling_window (fun r => r.inflow) a +
        (1 - alpha) * dow_in) 0
    pred_outflow :=
      max (alpha * rollMean df rolling_window (fun r => r.outflow) a +
        (1 - alpha) * dow_out) 0
    model := "BASELINE" }

/-- The body of the per-account loop of `run_baseline_forecasting`: one
forecast row for each of the `horizon` consecutive days after the account's
last observed date. -/
def forecastAccount (df : Ledger) (horizon rolling_window : ℕ) (alpha : ℚ)
    (a : ℕ) : List ForecastRow :=
  (List.range horizon).map (forecastRowAt df rolling_window alpha a)

/-- One date's row of the bank-level forecast: the
`groupby("Date")[["Predicted_Inflow","Predicted_Outflow"]].sum()` group. -/
def bankForecastRowOf (account_forecast : List ForecastRow) (d : ℤ) :
    BankForecastRow :=
  let rows := account_forecast.filter (fun r => r.date == d)
  { date := d
    pred_inflow := (rows.map (fun r => r.pred_inflow)).sum
    pred_outflow := (rows.map (fun r => r.pred_outflow)).sum
    model := "BASELINE_BANK" }

/-- The bank-level aggregation block of `run_baseline_forecasting`: one row
per distinct date of the account-level forecast (ascending, as `groupby`
iterates). -/
def bankAggregate (account_forecast : List ForecastRow) : List BankForecastRow :=
  (sortBy (fun d e => decide (d ≤ e))
    ((account_forecast.map (fun r => r.date)).dedup)).map
      (bankForecastRowOf account_forecast)

/-- `run_baseline_forecasting(df, horizon=14, rolling_window=14, alpha=0.7)`
from `baseline_forecasting.py`: the account-level forecast (per-account loop
over the grouped ledger) and the bank-level aggregate. -/
def run_baseline_forecasting (df : Ledger) (horizon : ℕ := 14)
    (rolling_window : ℕ := 14) (alpha : ℚ := 7/10) :
    List ForecastRow × List BankForecastRow :=
  let account_forecast :=
    (sortedAccounts df).flatMap (forecastAccount df horizon rolling_window alpha)
  (account_forecast, bankAggregate account_forecast)

/-! ## Behavior intelligence (`behavior_intelligence.py`) -/

/-- `Series.std()` squared before the square root: the sample variance with
`ddof = 1`, which pandas leaves as NaN (`none`) for fewer than two points. -/
def sampleVar (l : List ℚ) : Option ℚ :=
  if 2 ≤ l.length then
    some ((l.map (fun x => (x - meanQ l) ^ 2)).sum / ((l.length : ℚ) - 1))
  else none

/-- `Series.std()`: the square root of the sample variance, NaN (`none`) for
fewer than two points. -/
noncomputable def sampleStd (l : List ℚ) : Option ℝ :=
  (sampleVar l).map (fun v => Real.sqrt (v : ℝ))

/-- One row of the `account_behavior_metrics` table (the `cv_in` local of the
source is computed but not stored in the record, so it has no field here). -/
structure BehaviorRow where
  account : ℕ
  avg_inflow : ℚ
  avg_outflow : ℚ
  net_flow : ℚ
  outflow_volatility : Option ℝ
  outflow_cv : Option ℝ
  stability_score : ℝ

/-- The body of the per-account loop of `account_behavior_metrics`:
`cv_out = std_out / avg_out if avg_out > 0 else np.nan` and
`stability_score = 1 / (1 + cv_out) if not np.isnan(cv_out) else 0`.
A NaN `std_out` propagates through the division, hence the `Option.map`. -/
noncomputable def behaviorRowOf (df : Ledger) (a : ℕ) : BehaviorRow :=
  let g := groupOf df a
  let avg_in := meanQ (g.map (fun r => r.inflow))
  let avg_out := meanQ (g.map (fun r => r.outflow))
  let std_out := sampleStd (g.map (fun r => r.outflow))
  let cv_out : Option ℝ :=
    if 0 < avg_out then std_out.map (fun s => s / (avg_out : ℝ)) else none
  { account := a
    avg_inflow := avg_in
    avg_outflow := avg_out
    net_flow := avg_in - avg_out
    outflow_volatility := std_out
    outflow_cv := cv_out
    stability_score :=
      match cv_out with
      | none => 0
      | some c => 1 / (1 + c) }

/-- `account_behavior_metrics(df)` from `behavior_intelligence.py`. -/
noncomputable def account_behavior_metrics (df : Ledger) : List BehaviorRow :=
  (sortedAccounts df).map (behaviorRowOf df)

/-- One row of the `structural_cash_estimation` table.  The
`Structural_Ratio` column is the `structural_frac` field. -/
structure StructuralRow where
  account : ℕ
  structural_inflow : ℚ
  volatile_inflow : ℚ
  structural_frac : ℚ
deriving DecidableEq, Repr

/-- `Series.quantile(q)` with pandas' default linear interpolation between
order statistics: at position `h = q * (n - 1)` of the sorted values.
(Nonempty series only; the groups below are nonempty.) -/
def quantileQ (l : List ℚ) (q : ℚ) : ℚ :=
  let s := sortBy (fun a b => decide (a ≤ b)) l
  let n := s.length
  let h : ℚ := q * ((n : ℚ) - 1)
  let i : ℕ := (⌊h⌋).toNat
  let frac : ℚ := h - (⌊h⌋ : ℚ)
  let lo := s.getD i 0
  let hi := s.getD (min (i + 1) (n - 1)) 0
  lo + frac * (hi - lo)

/-- The body of the per-account loop of `structural_cash_estimation`. -/
def structuralRowOf (quantile : ℚ) (df : Ledger) (a : ℕ) : StructuralRow :=
  let g := groupOf df a
  let structural_inflow := quantileQ (g.map (fun r => r.inflow)) quantile
  let mean_inflow := meanQ (g.map (fun r => r.inflow))
  { account := a
    structural_inflow := structural_inflow
    volatile_inflow := max (mean_inflow - structural_inflow) 0
    structural_frac :=
      if 0 < mean_inflow then structural_inflow / mean_inflow else 0 }

/-- `structural_cash_estimation(df, quantile=0.25)` from
`behavior_intelligence.py`. -/
def structural_cash_estimation (df : Ledger) (quantile : ℚ := 1/4) :
    List StructuralRow :=
  (sortedAccounts df).map (structuralRowOf quantile df)

/-! ## Cash requirement engine (`cash_requirement_engine.py`) -/

/-- One row of the `balances` input of the engine: `Account_ID`,
`Balance_INR`. -/
structure BalanceRow where
  account : ℕ
  balance : ℚ
deriving DecidableEq, Repr

/-- One row of the account-level output of `run_cash_requirement_engine`:
the forecast columns, the merged-and-zero-filled columns, and the derived
columns. -/
structure RequirementRow where
  date : ℤ
  account : ℕ
  pred_inflow : ℚ
  pred_outflow : ℚ
  outflow_volatility : ℝ
  structural_inflow : ℚ
  balance : ℚ
  safety_buffer : ℝ
  stress_buffer : ℚ
  reliable_inflow : ℚ
  required_cash : ℝ
  funding_gap : ℝ
  idle_cash : ℝ
  action : String

/-- One row of the bank-level output of `run_cash_requirement_engine`. -/
structure BankRequirementRow where
  date : ℤ
  pred_inflow : ℚ
  pred_outflow : ℚ
  required_cash : ℝ
  funding_gap : ℝ
  idle_cash : ℝ
  action : String

/-- The per-row computation of `run_cash_requirement_engine`: the three left
joins keyed by `Account_ID` with `fillna(0)` on the joined numeric columns,
then the buffers, required cash, funding gap,
`Idle_Cash = np.where(gap < 0, abs(gap), 0)` and the `np.select` action with
default `"MONITOR"`. -/
noncomputable def requirementRowOf (metrics : List BehaviorRow)
    (structural_cash : List StructuralRow) (balances : List BalanceRow)
    (stress_pct confidence_factor : ℚ) (fr : ForecastRow) : RequirementRow :=
  let vol : ℝ :=
    ((metrics.find? (fun m => m.account == fr.account)).bind
      (fun m => m.outflow_volatility)).getD 0
  let si : ℚ :=
    ((structural_cash.find? (fun s => s.account == fr.account)).map
      (fun s => s.structural_inflow)).getD 0
  let bal : ℚ :=
    ((balances.find? (fun b => b.account == fr.account)).map
      (fun b => b.balance)).getD 0
  let safety : ℝ := vol * (confidence_factor : ℝ)
  let stress : ℚ := fr.pred_outflow * stress_pct
  let reliable : ℚ := si
  let required : ℝ :=
    (fr.pred_outflow : ℝ) + safety + (stress : ℝ) - (reliable : ℝ)
  let gap : ℝ := required - (bal : ℝ)
  { date := fr.date
    account := fr.account
    pred_inflow := fr.pred_inflow
    pred_outflow := fr.pred_outflow
    outflow_volatility := vol
    structural_inflow := si
    balance := bal
    safety_buffer := safety
    stress_buffer := stress
    reliable_inflow := reliable
    required_cash := required
    funding_gap := gap
    idle_cash := if gap < 0 then |gap| else 0
    action :=
      if gap > 0 then "RAISE_FUNDS"
      else if gap ≤ 0 then "INVEST_SURPLUS"
      else "MONITOR" }

/-- One date's row of the bank-level engine output: `groupby("Date")` sums
of the numeric columns and the `np.select` bank action with default
`"BANK_MONITOR"`. -/
noncomputable def bankRequirementRowOf (df : List RequirementRow) (d : ℤ) :
    BankRequirementRow :=
  let rows := df.filter (fun r => r.date == d)
  let gap := (rows.map (fun r => r.funding_gap)).sum
  { date := d
    pred_inflow := (rows.map (fun r => r.pred_inflow)).sum
    pred_outflow := (rows.map (fun r => r.pred_outflow)).sum
    required_cash := (rows.map (fun r => r.required_cash)).sum
    funding_gap := gap
    idle_cash := (rows.map (fun r => r.idle_cash)).sum
    action :=
      if gap > 0 then "BANK_FUNDING_REQUIRED"
      else if gap ≤ 0 then "BANK_HAS_EXCESS_LIQUIDITY"
      else "BANK_MONITOR" }

/-- The bank-level aggregation block of `run_cash_requirement_engine`. -/
noncomputable def bankRequirement (df : List RequirementRow) :
    List BankRequirementRow :=
  (sortBy (fun d e => decide (d ≤ e)) ((df.map (fun r => r.date)).dedup)).map
    (bankRequirementRowOf df)

/-- `run_cash_requirement_engine(account_forecasts, account_behavior_metrics,
structural_cash, balances, stress_pct=0.15, confidence_factor=1.65)` from
`cash_requirement_engine.py`. -/
noncomputable def run_cash_requirement_engine
    (account_forecasts : List ForecastRow) (metrics : List BehaviorRow)
    (structural_cash : List StructuralRow) (balances : List BalanceRow)
    (stress_pct : ℚ := 3/20) (confidence_factor : ℚ := 33/20) :
    List RequirementRow × List BankRequirementRow :=
  let df := account_forecasts.map
    (requirementRowOf metrics structural_cash balances stress_pct confidence_factor)
  (df, bankRequirement df)

/-! ## The spec's concrete scenario: one account, fourteen identical daily
rows with Inflow 1000, Outflow 800, Balance 5000. -/

/-- One day of the scenario ledger. -/
def scenarioRow (d : ℤ) : CashflowRecord :=
  { date := d, account := 1, inflow := 1000, outflow := 800, balance := 5000 }

/-- The fourteen-identical-row ledger of the spec's concrete scenario. -/
def scenarioLedger : Ledger :=
  [scenarioRow 0, scenarioRow 1, scenarioRow 2, scenarioRow 3, scenarioRow 4,
   scenarioRow 5, scenarioRow 6, scenarioRow 7, scenarioRow 8, scenarioRow 9,
   scenarioRow 10, scenarioRow 11, scenarioRow 12, scenarioRow 13]

/-- The balance snapshot of the scenario: account 1 holds 5000. -/
def scenarioBalances : List BalanceRow := [{ account := 1, balance := 5000 }]

/-! ## Lemmas about the sorting and grouping primitives -/

theorem insertBy_perm {α : Type} (le : α → α → Bool) (x : α) (l : List α) :
    (insertBy le x l).Perm (x :: l) := by
  induction l with
  | nil => exact List.Perm.refl _
  | cons y ys ih =>
    rw [insertBy]
    by_cases h : le x y
    · rw [if_pos h]
    · rw [if_neg h]
      exact (ih.cons y).trans (List.Perm.swap x y ys)

theorem sortBy_perm {α : Type} (le : α → α → Bool) (l : List α) :
    (sortBy le l).Perm l := by
  induction l with
  | nil => exact List.Perm.refl _
  | cons a l ih =>
    rw [sortBy, List.foldr_cons]
    exact (insertBy_perm le a _).trans (ih.cons a)

theorem mem_sortBy {α : Type} {le : α → α → Bool} {a : α} {l : List α} :
    a ∈ sortBy le l ↔ a ∈ l :=
  (sortBy_perm le l).mem_iff

theorem length_sortBy {α : Type} (le : α → α → Bool) (l : List α) :
    (sortBy le l).length = l.length :=
  (sortBy_perm le l).length_eq

theorem nodup_sortBy {α : Type} (le : α → α → Bool) {l : List α}
    (h : l.Nodup) : (sortBy le l).Nodup :=
  ((sortBy_perm le l).nodup_iff).mpr h

theorem nodup_sortedAccounts (df : Ledger) : (sortedAccounts df).Nodup :=
  nodup_sortBy _ (List.nodup_dedup _)

theorem mem_sortedAccounts {df : Ledger} {a : ℕ} :
    a ∈ sortedAccounts df ↔ a ∈ df.map (fun r => r.account) := by
  rw [sortedAccounts, mem_sortBy, List.mem_dedup]

theorem mem_groupOf {df : Ledger} {a : ℕ} {r : CashflowRecord} :
    r ∈ groupOf df a ↔ r ∈ df ∧ r.account = a := by
  simp [groupOf, List.mem_filter]

theorem mem_sortByDate {g : Ledger} {r : CashflowRecord} :
    r ∈ sortByDate g ↔ r ∈ g :=
  mem_sortBy

theorem groupOf_ne_nil {df : Ledger} {a : ℕ} (h : a ∈ sortedAccounts df) :
    groupOf df a ≠ [] := by
  rw [mem_sortedAccounts, List.mem_map] at h
  obtain ⟨r, hr, hacc⟩ := h
  intro hnil
  have : r ∈ groupOf df a := mem_groupOf.mpr ⟨hr, hacc⟩
  rw [hnil] at this
  exact (List.not_mem_nil r) this

/-! ## Lemmas about means, variances and quantiles of constant series -/

theorem meanQ_const {l : List ℚ} {c : ℚ} (hne : l ≠ [])
    (h : ∀ x ∈ l, x = c) : meanQ l = c := by
  have hlen : (l.length : ℚ) ≠ 0 := by
    simpa using List.length_pos.mpr hne |>.ne'
  rw [meanQ, List.sum_eq_card_nsmul l c h, nsmul_eq_mul]
  field_simp

theorem sampleVar_const {l : List ℚ} {c : ℚ} (hlen : 2 ≤ l.length)
    (h : ∀ x ∈ l, x = c) : sampleVar l = some 0 := by
  have hne : l ≠ [] := by
    intro hnil; rw [hnil] at hlen; exact absurd hlen (by decide)
  have hmean : meanQ l = c := meanQ_const hne h
  rw [sampleVar, if_pos hlen]
  have hz : (l.map (fun x => (x - meanQ l) ^ 2)).sum = 0 := by
    apply List.sum_eq_zero
    intro x hx
    rw [List.mem_map] at hx
    obtain ⟨y, hy, rfl⟩ := hx
    rw [h y hy, hmean]
    ring
  rw [hz, zero_div]

theorem sampleVar_none {l : List ℚ} (h : l.length < 2) : sampleVar l = none := by
  rw [sampleVar, if_neg (by omega)]

theorem quantileQ_const {l : List ℚ} {c q : ℚ} (hne : l ≠ [])
    (hq0 : 0 ≤ q) (hq1 : q ≤ 1) (h : ∀ x ∈ l, x = c) : quantileQ l q = c := by
  rw [quantileQ]
  set s := sortBy (fun a b => decide (a ≤ b)) l with hs
  have hmem : ∀ x ∈ s, x = c := fun x hx => h x (mem_sortBy.mp hx)
  have hlen : s.length = l.length := length_sortBy _ l
  have hpos : 0 < s.length := by
    rw [hlen]; exact List.length_pos.mpr hne
  set n := s.length with hn
  set hh : ℚ := q * ((n : ℚ) - 1) with hhh
  have hh0 : 0 ≤ hh := by
    apply mul_nonneg hq0
    have : (1 : ℚ) ≤ (n : ℚ) := by exact_mod_cast hpos
    linarith
  have hhle : hh ≤ (n : ℚ) - 1 := by
    have : (1 : ℚ) ≤ (n : ℚ) := by exact_mod_cast hpos
    calc q * ((n : ℚ) - 1) ≤ 1 * ((n : ℚ) - 1) := by
          apply mul_le_mul_of_nonneg_right hq1; linarith
      _ = (n : ℚ) - 1 := one_mul _
  have hfl0 : 0 ≤ ⌊hh⌋ := Int.le_floor.mpr (by exact_mod_cast hh0)
  have hflt : (⌊hh⌋).toNat < n := by
    rw [Int.toNat_lt hfl0]
    have : (⌊hh⌋ : ℚ) ≤ (n : ℚ) - 1 := le_trans (Int.floor_le hh) hhle
    exact_mod_cast (by linarith : (⌊hh⌋ : ℚ) < (n : ℚ))
  have hlo : s.getD (⌊hh⌋).toNat 0 = c := by
    rw [List.getD_eq_getElem s 0 hflt]
    exact hmem _ (List.getElem_mem hflt)
  have hhi : s.getD (min ((⌊hh⌋).toNat + 1) (n - 1)) 0 = c := by
    have hlt : min ((⌊hh⌋).toNat + 1) (n - 1) < n := by omega
    rw [List.getD_eq_getElem s 0 hlt]
    exact hmem _ (List.getElem_mem hlt)
  rw [hlo, hhi]
  ring

theorem dowMean_getD_const {g : Ledger} {sel : CashflowRecord → ℚ} {c : ℚ}
    (h : ∀ r ∈ g, sel r = c) (d : ℤ) : (dowMean g sel d).getD c = c := by
  rw [dowMean]
  set s := g.filter (fun r => dayOfWeek r.date == d) with hs
  by_cases hse : s.isEmpty
  · rw [if_pos hse]; rfl
  · rw [if_neg hse]
    have hne : s ≠ [] := by
      intro hnil; rw [hnil] at hse; exact hse rfl
    have hmapne : s.map sel ≠ [] := by
      simpa using hne
    have : meanQ (s.map sel) = c := by
      apply meanQ_const hmapne
      intro x hx
      rw [List.mem_map] at hx
      obtain ⟨r, hr, rfl⟩ := hx
      exact h r (List.mem_of_mem_filter hr)
    rw [Option.getD_some, this]

/-! ## Lemmas about the baseline forecaster -/

theorem run_baseline_forecasting_fst (df : Ledger) (h w : ℕ) (a : ℚ) :
    (run_baseline_forecasting df h w a).1 =
      (sortedAccounts df).flatMap (forecastAccount df h w a) := rfl

theorem run_baseline_forecasting_snd (df : Ledger) (h w : ℕ) (a : ℚ) :
    (run_baseline_forecasting df h w a).2 =
      bankAggregate ((sortedAccounts df).flatMap (forecastAccount df h w a)) := rfl

theorem forecastAccount_account {df : Ledger} {h w : ℕ} {al : ℚ} {a : ℕ}
    {r : ForecastRow} (hr : r ∈ forecastAccount df h w al a) : r.account = a := by
  rw [forecastAccount] at hr
  simp only [List.mem_map] at hr
  obtain ⟨i, _, rfl⟩ := hr
  rfl

theorem forecastAccount_map_date (df : Ledger) (h w : ℕ) (al : ℚ) (a : ℕ) :
    (forecastAccount df h w al a).map (fun r => r.date) =
      (List.range h).map (fun (i : ℕ) => lastDateOf df a + 1 + (i : ℤ)) := by
  rw [forecastAccount, List.map_map]
  rfl

theorem forecastAccount_length (df : Ledger) (h w : ℕ) (al : ℚ) (a : ℕ) :
    (forecastAccount df h w al a).length = h := by
  have h1 := congrArg List.length (forecastAccount_map_date df h w al a)
  rw [List.length_map, List.length_map, List.length_range] at h1
  exact h1

theorem forecastAccount_pred_nonneg {df : Ledger} {h w : ℕ} {al : ℚ} {a : ℕ}
    {r : ForecastRow} (hr : r ∈ forecastAccount df h w al a) :
    0 ≤ r.pred_inflow ∧ 0 ≤ r.pred_outflow := by
  rw [forecastAccount] at hr
  simp only [List.mem_map] at hr
  obtain ⟨i, _, rfl⟩ := hr
  exact ⟨le_max_right _ _, le_max_right _ _⟩

/-- Filtering a `flatMap` over distinct account keys down to one key yields
exactly that key's block. -/
theorem filter_flatMap_account (accs : List ℕ) (f : ℕ → List ForecastRow)
    (hnd : accs.Nodup) (hacc : ∀ b ∈ accs, ∀ r ∈ f b, r.account = b)
    {a : ℕ} (ha : a ∈ accs) :
    (accs.flatMap f).filter (fun r => r.account == a) = f a := by
  induction accs with
  | nil => exact absurd ha (List.not_mem_nil a)
  | cons b t ih =>
    rw [List.flatMap_cons, List.filter_append]
    rcases List.mem_cons.mp ha with rfl | hat
    · have h1 : (f a).filter (fun r => r.account == a) = f a := by
        rw [List.filter_eq_self]
        intro r hr
        simpa using hacc a (List.mem_cons_self a t) r hr
      have h2 : (t.flatMap f).filter (fun r => r.account == a) = [] := by
        rw [List.filter_eq_nil_iff]
        intro r hr
        rw [List.mem_flatMap] at hr
        obtain ⟨b, hb, hrb⟩ := hr
        have : r.account = b := hacc b (List.mem_cons_of_mem a hb) r hrb
        have hba : b ≠ a := by
          intro hEq; subst hEq
          exact (List.nodup_cons.mp hnd).1 hb
        simp [this, hba]
      rw [h1, h2, List.append_nil]
    · have hba : b ≠ a := by
        intro hEq; subst hEq
        exact (List.nodup_cons.mp hnd).1 hat
      have h1 : (f b).filter (fun r => r.account == a) = [] := by
        rw [List.filter_eq_nil_iff]
        intro r hr
        have : r.account = b := hacc b (List.mem_cons_self b t) r hr
        simp [this, hba]
      rw [h1, List.nil_append]
      exact ih (List.nodup_cons.mp hnd).2
        (fun c hc => hacc c (List.mem_cons_of_mem b hc)) hat

/-- `List.max?` of a nonempty list is a member and an upper bound. -/
theorem max?_spec (l : List ℤ) (hne : l ≠ []) :
    ∃ m, l.max? = some m ∧ m ∈ l ∧ ∀ x ∈ l, x ≤ m := by
  match l with
  | [] => exact absurd rfl hne
  | a :: t =>
    have key : ∀ (t : List ℤ) (a : ℤ),
        (a ≤ t.foldl max a) ∧ (t.foldl max a = a ∨ t.foldl max a ∈ t) ∧
          ∀ x ∈ t, x ≤ t.foldl max a := by
      intro t
      induction t with
      | nil => intro a; refine ⟨le_refl a, Or.inl rfl, ?_⟩; intro x hx; cases hx
      | cons b s ih =>
        intro a
        obtain ⟨h1, h2, h3⟩ := ih (max a b)
        rw [List.foldl_cons]
        refine ⟨le_trans (le_max_left a b) h1, ?_, ?_⟩
        · rcases h2 with h2 | h2
          · rcases max_choice a b with hm | hm
            · exact Or.inl (by rw [h2, hm])
            · exact Or.inr (by rw [h2, hm]; exact List.mem_cons_self b s)
          · exact Or.inr (List.mem_cons_of_mem b h2)
        · intro x hx
          rcases List.mem_cons.mp hx with rfl | hx
          · exact le_trans (le_max_right a x) h1
          · exact h3 x hx
    obtain ⟨h1, h2, h3⟩ := key t a
    refine ⟨t.foldl max a, rfl, ?_, ?_⟩
    · rcases h2 with h2 | h2
      · rw [h2]; exact List.mem_cons_self a t
      · exact List.mem_cons_of_mem a h2
    · intro x hx
      rcases List.mem_cons.mp hx with rfl | hx
      · exact h1
      · exact h3 x hx

/-- `lastDateOf` is the maximum historical date of the account's group. -/
theorem lastDateOf_spec {df : Ledger} {a : ℕ} (ha : a ∈ sortedAccounts df) :
    (∀ r ∈ groupOf df a, r.date ≤ lastDateOf df a) ∧
      ∃ r ∈ groupOf df a, r.date = lastDateOf df a := by
  have hne : (sortByDate (groupOf df a)).map (fun r => r.date) ≠ [] := by
    have := groupOf_ne_nil ha
    intro hnil
    rcases List.exists_mem_of_ne_nil _ this with ⟨r, hr⟩
    have : r ∈ sortByDate (groupOf df a) := mem_sortByDate.mpr hr
    have : r.date ∈ (sortByDate (groupOf df a)).map (fun r => r.date) :=
      List.mem_map_of_mem _ this
    rw [hnil] at this
    exact (List.not_mem_nil _) this
  obtain ⟨m, hm, hmem, hub⟩ := max?_spec _ hne
  have hlast : lastDateOf df a = m := by rw [lastDateOf, hm]; rfl
  constructor
  · intro r hr
    rw [hlast]
    exact hub r.date (List.mem_map_of_mem _ (mem_sortByDate.mpr hr))
  · rw [List.mem_map] at hmem
    obtain ⟨r, hr, hrd⟩ := hmem
    exact ⟨r, mem_sortByDate.mp hr, by rw [hrd, hlast]⟩

/-! ## Lemmas about the behavior metrics -/

theorem behaviorRowOf_account (df : Ledger) (a : ℕ) :
    (behaviorRowOf df a).account = a := rfl

theorem behaviorRowOf_avg_outflow (df : Ledger) (a : ℕ) :
    (behaviorRowOf df a).avg_outflow =
      meanQ ((groupOf df a).map (fun r => r.outflow)) := rfl

theorem behaviorRowOf_vol (df : Ledger) (a : ℕ) :
    (behaviorRowOf df a).outflow_volatility =
      sampleStd ((groupOf df a).map (fun r => r.outflow)) := rfl

theorem behaviorRowOf_stability_match (df : Ledger) (a : ℕ) :
    (behaviorRowOf df a).stability_score =
      (match (behaviorRowOf df a).outflow_cv with
       | none => (0 : ℝ)
       | some c => 1 / (1 + c)) := rfl

theorem behaviorRowOf_cv_eq (df : Ledger) (a : ℕ) :
    (behaviorRowOf df a).outflow_cv =
      (if 0 < meanQ ((groupOf df a).map (fun r => r.outflow))
       then (sampleStd ((groupOf df a).map (fun r => r.outflow))).map
         (fun s => s / ((meanQ ((groupOf df a).map (fun r => r.outflow)) : ℚ) : ℝ))
       else none) := rfl

theorem behaviorRowOf_cv_nonneg {df : Ledger} {a : ℕ} {c : ℝ}
    (hc : (behaviorRowOf df a).outflow_cv = some c) : 0 ≤ c := by
  rw [behaviorRowOf_cv_eq] at hc
  by_cases havg : 0 < meanQ ((groupOf df a).map (fun r => r.outflow))
  · rw [if_pos havg] at hc
    simp only [sampleStd] at hc
    rcases hv : sampleVar ((groupOf df a).map (fun r => r.outflow)) with _ | v
    · rw [hv] at hc; simp at hc
    · rw [hv] at hc
      simp at hc
      subst hc
      apply div_nonneg (Real.sqrt_nonneg _)
      have : (0 : ℚ) ≤ meanQ ((groupOf df a).map (fun r => r.outflow)) := le_of_lt havg
      exact_mod_cast this
  · rw [if_neg havg] at hc
    cases hc

/-- `find?` by key over a table built as `map` of a key-preserving row
constructor: present keys find their row. -/
theorem find?_map_key {β : Type} (accs : List ℕ) (f : ℕ → β) (key : β → ℕ)
    (hkey : ∀ b, key (f b) = b) {a : ℕ} (ha : a ∈ accs) :
    (accs.map f).find? (fun m => key m == a) = some (f a) := by
  induction accs with
  | nil => exact absurd ha (List.not_mem_nil a)
  | cons b t ih =>
    rw [List.map_cons]
    by_cases hba : b = a
    · subst hba
      apply List.find?_cons_of_pos
      show (key (f b) == b) = true
      rw [hkey b]; exact beq_self_eq_true b
    · have hf : ¬ ((fun m => key m == a) (f b)) = true := by
        show ¬ (key (f b) == a) = true
        rw [hkey b, beq_false_of_ne hba]
        exact Bool.false_ne_true
      have step : List.find? (fun m => key m == a) (f b :: List.map f t) =
          List.find? (fun m => key m == a) (List.map f t) :=
        List.find?_cons_of_neg _ hf
      rw [step]
      have hat : a ∈ t := by
        rcases List.mem_cons.mp ha with rfl | hat
        · exact absurd rfl hba
        · exact hat
      exact ih hat

/-- `find?` by key over such a table: absent keys find nothing. -/
theorem find?_map_key_none {β : Type} (accs : List ℕ) (f : ℕ → β) (key : β → ℕ)
    (hkey : ∀ b, key (f b) = b) {a : ℕ} (ha : a ∉ accs) :
    (accs.map f).find? (fun m => key m == a) = none := by
  rw [List.find?_eq_none]
  intro x hx
  rw [List.mem_map] at hx
  obtain ⟨b, hb, rfl⟩ := hx
  rw [hkey b]
  intro hbeq
  exact ha (by rwa [beq_iff_eq.mp hbeq] at hb)

/-! ## Lemmas about the requirement engine -/

theorem run_engine_fst (fs : List ForecastRow) (ms : List BehaviorRow)
    (ss : List StructuralRow) (bs : List BalanceRow) (s z : ℚ) :
    (run_cash_requirement_engine fs ms ss bs s z).1 =
      fs.map (requirementRowOf ms ss bs s z) := rfl

theorem run_engine_snd (fs : List ForecastRow) (ms : List BehaviorRow)
    (ss : List StructuralRow) (bs : List BalanceRow) (s z : ℚ) :
    (run_cash_requirement_engine fs ms ss bs s z).2 =
      bankRequirement (fs.map (requirementRowOf ms ss bs s z)) := rfl

theorem requirementRowOf_base (ms : List BehaviorRow) (ss : List StructuralRow)
    (bs : List BalanceRow) (s z : ℚ) (fr : ForecastRow) :
    (requirementRowOf ms ss bs s z fr).date = fr.date ∧
    (requirementRowOf ms ss bs s z fr).account = fr.account ∧
    (requirementRowOf ms ss bs s z fr).pred_inflow = fr.pred_inflow ∧
    (requirementRowOf ms ss bs s z fr).pred_outflow = fr.pred_outflow :=
  ⟨rfl, rfl, rfl, rfl⟩

/-- The filled columns of an engine row are what the three `find?` lookups
with `fillna(0)` deliver. -/
theorem requirementRowOf_joins (ms : List BehaviorRow) (ss : List StructuralRow)
    (bs : List BalanceRow) (s z : ℚ) (fr : ForecastRow) :
    (requirementRowOf ms ss bs s z fr).outflow_volatility =
      ((ms.find? (fun m => m.account == fr.account)).bind
        (fun m => m.outflow_volatility)).getD 0 ∧
    (requirementRowOf ms ss bs s z fr).structural_inflow =
      ((ss.find? (fun t => t.account == fr.account)).map
        (fun t => t.structural_inflow)).getD 0 ∧
    (requirementRowOf ms ss bs s z fr).balance =
      ((bs.find? (fun b => b.account == fr.account)).map
        (fun b => b.balance)).getD 0 :=
  ⟨rfl, rfl, rfl⟩

/-- The derived columns of an engine row satisfy the documented formulas. -/
theorem requirementRowOf_formulas (ms : List BehaviorRow)
    (ss : List StructuralRow) (bs : List BalanceRow) (s z : ℚ)
    (fr : ForecastRow) :
    (requirementRowOf ms ss bs s z fr).safety_buffer =
      (requirementRowOf ms ss bs s z fr).outflow_volatility * (z : ℝ) ∧
    (requirementRowOf ms ss bs s z fr).stress_buffer =
      (requirementRowOf ms ss bs s z fr).pred_outflow * s ∧
    (requirementRowOf ms ss bs s z fr).reliable_inflow =
      (requirementRowOf ms ss bs s z fr).structural_inflow ∧
    (requirementRowOf ms ss bs s z fr).required_cash =
      ((requirementRowOf ms ss bs s z fr).pred_outflow : ℝ) +
        (requirementRowOf ms ss bs s z fr).safety_buffer +
        ((requirementRowOf ms ss bs s z fr).stress_buffer : ℝ) -
        ((requirementRowOf ms ss bs s z fr).reliable_inflow : ℝ) ∧
    (requirementRowOf ms ss bs s z fr).funding_gap =
      (requirementRowOf ms ss bs s z fr).required_cash -
        ((requirementRowOf ms ss bs s z fr).balance : ℝ) :=
  ⟨rfl, rfl, rfl, rfl, rfl⟩

/-- The two-branch split of an engine row: the funding gap decides the action
and the idle cash, and the `"MONITOR"` default is unreachable. -/
theorem requirementRowOf_branch (ms : List BehaviorRow)
    (ss : List StructuralRow) (bs : List BalanceRow) (s z : ℚ)
    (fr : ForecastRow) :
    (0 < (requirementRowOf ms ss bs s z fr).funding_gap ∧
      (requirementRowOf ms ss bs s z fr).action = "RAISE_FUNDS" ∧
      (requirementRowOf ms ss bs s z fr).idle_cash = 0) ∨
    ((requirementRowOf ms ss bs s z fr).funding_gap ≤ 0 ∧
      (requirementRowOf ms ss bs s z fr).action = "INVEST_SURPLUS" ∧
      (requirementRowOf ms ss bs s z fr).idle_cash =
        -(requirementRowOf ms ss bs s z fr).funding_gap) := by
  have hact : (requirementRowOf ms ss bs s z fr).action =
      (if (requirementRowOf ms ss bs s z fr).funding_gap > 0 then "RAISE_FUNDS"
       else if (requirementRowOf ms ss bs s z fr).funding_gap ≤ 0 then
         "INVEST_SURPLUS"
       else "MONITOR") := rfl
  have hidle : (requirementRowOf ms ss bs s z fr).idle_cash =
      (if (requirementRowOf ms ss bs s z fr).funding_gap < 0 then
        |(requirementRowOf ms ss bs s z fr).funding_gap|
       else 0) := rfl
  rcases le_or_lt (requirementRowOf ms ss bs s z fr).funding_gap 0 with hle | hpos
  · right
    refine ⟨hle, ?_, ?_⟩
    · rw [hact, if_neg (not_lt.mpr hle), if_pos hle]
    · rw [hidle]
      rcases lt_or_eq_of_le hle with hlt | heq
      · rw [if_pos hlt, abs_of_neg hlt]
      · rw [if_neg (by rw [heq]; exact lt_irrefl 0), heq, neg_zero]
  · left
    refine ⟨hpos, ?_, ?_⟩
    · rw [hact, if_pos hpos]
    · rw [hidle, if_neg (not_lt.mpr (le_of_lt hpos))]

theorem bankAggregate_eq (af : List ForecastRow) :
    bankAggregate af =
      (sortBy (fun d e => decide (d ≤ e)) ((af.map (fun r => r.date)).dedup)).map
        (bankForecastRowOf af) := rfl

theorem bankForecastRowOf_fields (af : List ForecastRow) (d : ℤ) :
    (bankForecastRowOf af d).date = d ∧
    (bankForecastRowOf af d).pred_inflow =
      ((af.filter (fun r => r.date == d)).map (fun r => r.pred_inflow)).sum ∧
    (bankForecastRowOf af d).pred_outflow =
      ((af.filter (fun r => r.date == d)).map (fun r => r.pred_outflow)).sum :=
  ⟨rfl, rfl, rfl⟩

theorem bankRequirement_eq (df : List RequirementRow) :
    bankRequirement df =
      (sortBy (fun d e => decide (d ≤ e)) ((df.map (fun r => r.date)).dedup)).map
        (bankRequirementRowOf df) := rfl

theorem bankRequirementRowOf_gap (df : List RequirementRow) (d : ℤ) :
    (bankRequirementRowOf df d).funding_gap =
      ((df.filter (fun r => r.date == d)).map (fun r => r.funding_gap)).sum := rfl

/-- The two-branch split of a bank-level engine row: the `"BANK_MONITOR"`
default is unreachable. -/
theorem bankRequirementRowOf_branch (df : List RequirementRow) (d : ℤ) :
    (0 < (bankRequirementRowOf df d).funding_gap ∧
      (bankRequirementRowOf df d).action = "BANK_FUNDING_REQUIRED") ∨
    ((bankRequirementRowOf df d).funding_gap ≤ 0 ∧
      (bankRequirementRowOf df d).action = "BANK_HAS_EXCESS_LIQUIDITY") := by
  have hact : (bankRequirementRowOf df d).action =
      (if (bankRequirementRowOf df d).funding_gap > 0 then
        "BANK_FUNDING_REQUIRED"
       else if (bankRequirementRowOf df d).funding_gap ≤ 0 then
         "BANK_HAS_EXCESS_LIQUIDITY"
       else "BANK_MONITOR") := rfl
  rcases le_or_lt (bankRequirementRowOf df d).funding_gap 0 with hle | hpos
  · right
    exact ⟨hle, by rw [hact, if_neg (not_lt.mpr hle), if_pos hle]⟩
  · left
    exact ⟨hpos, by rw [hact, if_pos hpos]⟩

/-! ## Evaluation of the spec's fourteen-identical-row scenario -/

theorem scenario_accounts : sortedAccounts scenarioLedger = [1] := by decide

theorem scenario_group : sortByDate (groupOf scenarioLedger 1) = scenarioLedger := by
  decide

theorem scenario_inflow_const : ∀ r ∈ scenarioLedger, r.inflow = 1000 := by decide

theorem scenario_outflow_const : ∀ r ∈ scenarioLedger, r.outflow = 800 := by decide

theorem scenario_roll_in : rollMean scenarioLedger 14 (fun r => r.inflow) 1 = 1000 := by
  rw [rollMean, scenario_group]
  have ht : tailN 14 scenarioLedger = scenarioLedger := by decide
  rw [ht]
  apply meanQ_const (by decide)
  intro x hx
  rw [List.mem_map] at hx
  obtain ⟨r, hr, rfl⟩ := hx
  exact scenario_inflow_const r hr

theorem scenario_roll_out : rollMean scenarioLedger 14 (fun r => r.outflow) 1 = 800 := by
  rw [rollMean, scenario_group]
  have ht : tailN 14 scenarioLedger = scenarioLedger := by decide
  rw [ht]
  apply meanQ_const (by decide)
  intro x hx
  rw [List.mem_map] at hx
  obtain ⟨r, hr, rfl⟩ := hx
  exact scenario_outflow_const r hr

theorem scenario_dow_in (d : ℤ) :
    (dowMean scenarioLedger (fun r => r.inflow) d).getD 1000 = 1000 :=
  dowMean_getD_const scenario_inflow_const d

theorem scenario_dow_out (d : ℤ) :
    (dowMean scenarioLedger (fun r => r.outflow) d).getD 800 = 800 :=
  dowMean_getD_const scenario_outflow_const d

/-- Every forecast row of the scenario (any horizon, default window and
alpha) predicts inflow 1000 and outflow 800 for account 1. -/
theorem scenario_forecast_rows (h : ℕ) :
    ∀ r ∈ (run_baseline_forecasting scenarioLedger h).1,
      r.account = 1 ∧ r.pred_inflow = 1000 ∧ r.pred_outflow = 800 := by
  intro r hr
  rw [run_baseline_forecasting_fst, scenario_accounts] at hr
  simp only [List.flatMap_cons, List.flatMap_nil, List.append_nil] at hr
  rw [forecastAccount] at hr
  obtain ⟨i, hi, rfl⟩ := List.mem_map.mp hr
  refine ⟨rfl, ?_, ?_⟩
  · have e : (forecastRowAt scenarioLedger 14 (7/10) 1 i).pred_inflow =
        max ((7/10) * rollMean scenarioLedger 14 (fun r => r.inflow) 1 +
          (1 - 7/10) * ((dowMean (sortByDate (groupOf scenarioLedger 1))
            (fun r => r.inflow)
            (dayOfWeek (lastDateOf scenarioLedger 1 + 1 + (i : ℤ)))).getD
              (rollMean scenarioLedger 14 (fun r => r.inflow) 1))) 0 := rfl
    rw [e, scenario_group, scenario_roll_in, scenario_dow_in]
    have hv : (7/10 : ℚ) * 1000 + (1 - 7/10) * 1000 = 1000 := by norm_num
    rw [hv]
    exact max_eq_left (by norm_num)
  · have e : (forecastRowAt scenarioLedger 14 (7/10) 1 i).pred_outflow =
        max ((7/10) * rollMean scenarioLedger 14 (fun r => r.outflow) 1 +
          (1 - 7/10) * ((dowMean (sortByDate (groupOf scenarioLedger 1))
            (fun r => r.outflow)
            (dayOfWeek (lastDateOf scenarioLedger 1 + 1 + (i : ℤ)))).getD
              (rollMean scenarioLedger 14 (fun r => r.outflow) 1))) 0 := rfl
    rw [e, scenario_group, scenario_roll_out, scenario_dow_out]
    have hv : (7/10 : ℚ) * 800 + (1 - 7/10) * 800 = 800 := by norm_num
    rw [hv]
    exact max_eq_left (by norm_num)

theorem scenario_metrics :
    account_behavior_metrics scenarioLedger = [behaviorRowOf scenarioLedger 1] := by
  rw [account_behavior_metrics, scenario_accounts]
  rfl

theorem scenario_vol :
    (behaviorRowOf scenarioLedger 1).outflow_volatility = some 0 := by
  rw [behaviorRowOf_vol]
  have hvar : sampleVar ((groupOf scenarioLedger 1).map (fun r => r.outflow)) =
      some 0 := by
    apply sampleVar_const (by decide)
    intro x hx
    rw [List.mem_map] at hx
    obtain ⟨r, hr, rfl⟩ := hx
    exact scenario_outflow_const r (mem_groupOf.mp hr).1
  simp only [sampleStd]
  rw [hvar]
  simp

theorem scenario_structural :
    structural_cash_estimation scenarioLedger =
      [structuralRowOf (1/4) scenarioLedger 1] := by
  rw [structural_cash_estimation, scenario_accounts]
  rfl

theorem scenario_structural_inflow :
    (structuralRowOf (1/4) scenarioLedger 1).structural_inflow = 1000 := by
  show quantileQ ((groupOf scenarioLedger 1).map (fun r => r.inflow)) (1/4) = 1000
  apply quantileQ_const (by decide) (by norm_num) (by norm_num)
  intro x hx
  rw [List.mem_map] at hx
  obtain ⟨r, hr, rfl⟩ := hx
  exact scenario_inflow_const r (mem_groupOf.mp hr).1

/-- Every account-level engine row of the scenario pipeline (any horizon,
default engine parameters) has `SafetyBuffer 0`, `StressBuffer 120`,
`RequiredCash −80`, `FundingGap −5080`. -/
theorem scenario_engine_rows (h : ℕ) :
    ∀ r ∈ (run_cash_requirement_engine (run_baseline_forecasting scenarioLedger h).1
        (account_behavior_metrics scenarioLedger)
        (structural_cash_estimation scenarioLedger) scenarioBalances).1,
      r.safety_buffer = 0 ∧ r.stress_buffer = 120 ∧ r.required_cash = -80 ∧
        r.funding_gap = -5080 := by
  intro r hr
  rw [run_engine_fst] at hr
  obtain ⟨fr, hfr, rfl⟩ := List.mem_map.mp hr
  obtain ⟨hacc, _, hpo⟩ := scenario_forecast_rows h fr hfr
  have hjoins := requirementRowOf_joins (account_behavior_metrics scenarioLedger)
    (structural_cash_estimation scenarioLedger) scenarioBalances (3/20) (33/20) fr
  have hforms := requirementRowOf_formulas (account_behavior_metrics scenarioLedger)
    (structural_cash_estimation scenarioLedger) scenarioBalances (3/20) (33/20) fr
  have hbase := requirementRowOf_base (account_behavior_metrics scenarioLedger)
    (structural_cash_estimation scenarioLedger) scenarioBalances (3/20) (33/20) fr
  have hvol : (requirementRowOf (account_behavior_metrics scenarioLedger)
      (structural_cash_estimation scenarioLedger) scenarioBalances
      (3/20) (33/20) fr).outflow_volatility = 0 := by
    rw [hjoins.1, scenario_metrics, hacc]
    have hf : List.find? (fun m => m.account == 1) [behaviorRowOf scenarioLedger 1] =
        some (behaviorRowOf scenarioLedger 1) :=
      List.find?_cons_of_pos _ (by
        show ((behaviorRowOf scenarioLedger 1).account == 1) = true
        rw [behaviorRowOf_account]; exact beq_self_eq_true 1)
    rw [hf]
    show ((behaviorRowOf scenarioLedger 1).outflow_volatility).getD 0 = 0
    rw [scenario_vol]
    rfl
  have hsi : (requirementRowOf (account_behavior_metrics scenarioLedger)
      (structural_cash_estimation scenarioLedger) scenarioBalances
      (3/20) (33/20) fr).structural_inflow = 1000 := by
    rw [hjoins.2.1, scenario_structural, hacc]
    have hf : List.find? (fun t => t.account == 1)
        [structuralRowOf (1/4) scenarioLedger 1] =
        some (structuralRowOf (1/4) scenarioLedger 1) :=
      List.find?_cons_of_pos _ (by
        show ((structuralRowOf (1/4) scenarioLedger 1).account == 1) = true
        exact beq_self_eq_true 1)
    rw [hf]
    show (structuralRowOf (1/4) scenarioLedger 1).structural_inflow = 1000
    exact scenario_structural_inflow
  have hbal : (requirementRowOf (account_behavior_metrics scenarioLedger)
      (structural_cash_estimation scenarioLedger) scenarioBalances
      (3/20) (33/20) fr).balance = 5000 := by
    rw [hjoins.2.2, hacc]
    decide
  have hsb : (requirementRowOf (account_behavior_metrics scenarioLedger)
      (structural_cash_estimation scenarioLedger) scenarioBalances
      (3/20) (33/20) fr).safety_buffer = 0 := by
    rw [hforms.1, hvol, zero_mul]
  have hstb : (requirementRowOf (account_behavior_metrics scenarioLedger)
      (structural_cash_estimation scenarioLedger) scenarioBalances
      (3/20) (33/20) fr).stress_buffer = 120 := by
    rw [hforms.2.1, hbase.2.2.2, hpo]
    norm_num
  have hreq : (requirementRowOf (account_behavior_metrics scenarioLedger)
      (structural_cash_estimation scenarioLedger) scenarioBalances
      (3/20) (33/20) fr).required_cash = -80 := by
    rw [hforms.2.2.2.1, hbase.2.2.2, hpo, hsb, hstb, hforms.2.2.1, hsi]
    push_cast
    norm_num
  refine ⟨hsb, hstb, hreq, ?_⟩
  rw [hforms.2.2.2.2, hreq, hbal]
  push_cast
  norm_num

/-! ## The claims -/

/-- A small concrete forecast row used to instantiate the engine claims. -/
def w1fr : ForecastRow :=
  { date := 0, account := 3, pred_inflow := 1, pred_outflow := 2,
    model := "BASELINE" }

/-- C1: every row produced by `run_cash_requirement_engine` satisfies
`SafetyBuffer = OutflowVolatility·z`, `StressBuffer = PredictedOutflow·s`,
`ReliableInflow = StructuralInflow`,
`RequiredCash = PredictedOutflow + SafetyBuffer + StressBuffer − ReliableInflow`
and `FundingGap = RequiredCash − Balance`; and on the spec's
fourteen-identical-row account (Inflow 1000, Outflow 800, Balance 5000,
stressPct 0.15) the engine yields `SafetyBuffer 0`, `StressBuffer 120`,
`RequiredCash −80`, `FundingGap −5080` on every forecast row. -/
theorem C1_engine_formulas :
    (∀ (fs : List ForecastRow) (ms : List BehaviorRow) (ss : List StructuralRow)
        (bs : List BalanceRow) (s z : ℚ),
      ∀ r ∈ (run_cash_requirement_engine fs ms ss bs s z).1,
        r.safety_buffer = r.outflow_volatility * (z : ℝ) ∧
        r.stress_buffer = r.pred_outflow * s ∧
        r.reliable_inflow = r.structural_inflow ∧
        r.required_cash = (r.pred_outflow : ℝ) + r.safety_buffer +
          (r.stress_buffer : ℝ) - (r.reliable_inflow : ℝ) ∧
        r.funding_gap = r.required_cash - (r.balance : ℝ)) ∧
    (∀ h : ℕ, ∀ r ∈ (run_cash_requirement_engine
        (run_baseline_forecasting scenarioLedger h).1
        (account_behavior_metrics scenarioLedger)
        (structural_cash_estimation scenarioLedger) scenarioBalances).1,
      r.safety_buffer = 0 ∧ r.stress_buffer = 120 ∧ r.required_cash = -80 ∧
        r.funding_gap = -5080) := by
  constructor
  · intro fs ms ss bs s z r hr
    rw [run_engine_fst] at hr
    obtain ⟨fr, _, rfl⟩ := List.mem_map.mp hr
    exact requirementRowOf_formulas ms ss bs s z fr
  · exact scenario_engine_rows

/-- Witness for C1 at two concrete inputs. -/
theorem C1_engine_formulas_witness :
    (requirementRowOf [] [] [] 0 0 w1fr).funding_gap =
      (requirementRowOf [] [] [] 0 0 w1fr).required_cash -
        ((requirementRowOf [] [] [] 0 0 w1fr).balance : ℝ) ∧
    (requirementRowOf (account_behavior_metrics scenarioLedger)
      (structural_cash_estimation scenarioLedger) scenarioBalances (3/20)
      (33/20) (forecastRowAt scenarioLedger 14 (7/10) 1 0)).funding_gap =
        -5080 := by
  constructor
  · have hmem : requirementRowOf [] [] [] 0 0 w1fr ∈
        (run_cash_requirement_engine [w1fr] [] [] [] 0 0).1 := by
      rw [run_engine_fst]
      exact List.mem_map_of_mem _ (List.mem_singleton_self w1fr)
    exact (C1_engine_formulas.1 [w1fr] [] [] [] 0 0 _ hmem).2.2.2.2
  · have hmem : requirementRowOf (account_behavior_metrics scenarioLedger)
        (structural_cash_estimation scenarioLedger) scenarioBalances (3/20)
        (33/20) (forecastRowAt scenarioLedger 14 (7/10) 1 0) ∈
        (run_cash_requirement_engine
          (run_baseline_forecasting scenarioLedger 1).1
          (account_behavior_metrics scenarioLedger)
          (structural_cash_estimation scenarioLedger) scenarioBalances).1 := by
      rw [run_engine_fst]
      apply List.mem_map_of_mem
      rw [run_baseline_forecasting_fst, scenario_accounts]
      simp only [List.flatMap_cons, List.flatMap_nil, List.append_nil]
      rw [forecastAccount]
      exact List.mem_map_of_mem _ (by decide)
    exact ((C1_engine_formulas.2 1) _ hmem).2.2.2

/-- C2: for every account-level engine row exactly one branch holds —
`FundingGap > 0` with `Action = "RAISE_FUNDS"` and `IdleCash = 0`, or
`FundingGap ≤ 0` with `Action = "INVEST_SURPLUS"` and
`IdleCash = −FundingGap` — so the `"MONITOR"` default is unreachable, and at
bank level only `"BANK_FUNDING_REQUIRED"` (gap > 0) and
`"BANK_HAS_EXCESS_LIQUIDITY"` (gap ≤ 0) are reachable. -/
theorem C2_action_partition :
    ∀ (fs : List ForecastRow) (ms : List BehaviorRow) (ss : List StructuralRow)
      (bs : List BalanceRow) (s z : ℚ),
      (∀ r ∈ (run_cash_requirement_engine fs ms ss bs s z).1,
        (0 < r.funding_gap ∧ r.action = "RAISE_FUNDS" ∧ r.idle_cash = 0 ∧
          ¬ (r.funding_gap ≤ 0)) ∨
        (r.funding_gap ≤ 0 ∧ r.action = "INVEST_SURPLUS" ∧
          r.idle_cash = -r.funding_gap ∧ ¬ (0 < r.funding_gap))) ∧
      (∀ br ∈ (run_cash_requirement_engine fs ms ss bs s z).2,
        (0 < br.funding_gap ∧ br.action = "BANK_FUNDING_REQUIRED" ∧
          ¬ (br.funding_gap ≤ 0)) ∨
        (br.funding_gap ≤ 0 ∧ br.action = "BANK_HAS_EXCESS_LIQUIDITY" ∧
          ¬ (0 < br.funding_gap))) := by
  intro fs ms ss bs s z
  constructor
  · intro r hr
    rw [run_engine_fst] at hr
    obtain ⟨fr, _, rfl⟩ := List.mem_map.mp hr
    rcases requirementRowOf_branch ms ss bs s z fr with ⟨h1, h2, h3⟩ | ⟨h1, h2, h3⟩
    · exact Or.inl ⟨h1, h2, h3, not_le.mpr h1⟩
    · exact Or.inr ⟨h1, h2, h3, not_lt.mpr h1⟩
  · intro br hbr
    rw [run_engine_snd, bankRequirement_eq] at hbr
    obtain ⟨d, _, rfl⟩ := List.mem_map.mp hbr
    rcases bankRequirementRowOf_branch
        (fs.map (requirementRowOf ms ss bs s z)) d with ⟨h1, h2⟩ | ⟨h1, h2⟩
    · exact Or.inl ⟨h1, h2, not_le.mpr h1⟩
    · exact Or.inr ⟨h1, h2, not_lt.mpr h1⟩

/-- Witness for C2 at a concrete engine run. -/
theorem C2_action_partition_witness :
    ((0 < (requirementRowOf [] [] [] 0 0 w1fr).funding_gap ∧
      (requirementRowOf [] [] [] 0 0 w1fr).action = "RAISE_FUNDS" ∧
      (requirementRowOf [] [] [] 0 0 w1fr).idle_cash = 0 ∧
      ¬ ((requirementRowOf [] [] [] 0 0 w1fr).funding_gap ≤ 0)) ∨
    ((requirementRowOf [] [] [] 0 0 w1fr).funding_gap ≤ 0 ∧
      (requirementRowOf [] [] [] 0 0 w1fr).action = "INVEST_SURPLUS" ∧
      (requirementRowOf [] [] [] 0 0 w1fr).idle_cash =
        -(requirementRowOf [] [] [] 0 0 w1fr).funding_gap ∧
      ¬ (0 < (requirementRowOf [] [] [] 0 0 w1fr).funding_gap))) ∧
    ((0 < (bankRequirementRowOf [requirementRowOf [] [] [] 0 0 w1fr] 0).funding_gap ∧
      (bankRequirementRowOf [requirementRowOf [] [] [] 0 0 w1fr] 0).action =
        "BANK_FUNDING_REQUIRED" ∧
      ¬ ((bankRequirementRowOf [requirementRowOf [] [] [] 0 0 w1fr] 0).funding_gap ≤ 0)) ∨
    ((bankRequirementRowOf [requirementRowOf [] [] [] 0 0 w1fr] 0).funding_gap ≤ 0 ∧
      (bankRequirementRowOf [requirementRowOf [] [] [] 0 0 w1fr] 0).action =
        "BANK_HAS_EXCESS_LIQUIDITY" ∧
      ¬ (0 < (bankRequirementRowOf [requirementRowOf [] [] [] 0 0 w1fr] 0).funding_gap))) := by
  have hpart := C2_action_partition [w1fr] [] [] [] 0 0
  constructor
  · have hmem : requirementRowOf [] [] [] 0 0 w1fr ∈
        (run_cash_requirement_engine [w1fr] [] [] [] 0 0).1 := by
      rw [run_engine_fst]
      exact List.mem_map_of_mem _ (List.mem_singleton_self w1fr)
    exact hpart.1 _ hmem
  · have hmem : bankRequirementRowOf [requirementRowOf [] [] [] 0 0 w1fr] 0 ∈
        (run_cash_requirement_engine [w1fr] [] [] [] 0 0).2 := by
      rw [run_engine_snd, bankRequirement_eq]
      exact List.mem_map_of_mem _ (by
        rw [mem_sortBy, List.mem_dedup]
        exact List.mem_singleton_self (0 : ℤ))
    exact hpart.2 _ hmem

/-- C3: for every account in the input ledger, `run_baseline_forecasting`
emits exactly `horizon` forecast rows whose dates are the consecutive
calendar days after that account's maximum historical date (no gaps, no
duplicates), and no `(Date, Account_ID)` pair repeats globally. -/
theorem C3_forecast_dates :
    ∀ (df : Ledger) (h w : ℕ) (al : ℚ),
      (∀ a ∈ df.map (fun r => r.account),
        ((run_baseline_forecasting df h w al).1.filter
            (fun r => r.account == a)).map (fun r => r.date) =
          (List.range h).map (fun (i : ℕ) => lastDateOf df a + 1 + (i : ℤ)) ∧
        (∀ g ∈ groupOf df a, g.date ≤ lastDateOf df a) ∧
        (∃ g ∈ groupOf df a, g.date = lastDateOf df a)) ∧
      ((run_baseline_forecasting df h w al).1.map
          (fun r => (r.date, r.account))).Nodup := by
  intro df h w al
  constructor
  · intro a ha
    have ha' : a ∈ sortedAccounts df := mem_sortedAccounts.mpr ha
    have hfilter : (run_baseline_forecasting df h w al).1.filter
        (fun r => r.account == a) = forecastAccount df h w al a := by
      rw [run_baseline_forecasting_fst]
      exact filter_flatMap_account (sortedAccounts df) _
        (nodup_sortedAccounts df)
        (fun b _ r hr => forecastAccount_account hr) ha'
    obtain ⟨hub, hmem⟩ := lastDateOf_spec ha'
    exact ⟨by rw [hfilter, forecastAccount_map_date], hub, hmem⟩
  · rw [run_baseline_forecasting_fst, List.map_flatMap]
    rw [List.nodup_flatMap]
    constructor
    · intro a _
      have he : (forecastAccount df h w al a).map (fun r => (r.date, r.account)) =
          (List.range h).map
            (fun (i : ℕ) => (lastDateOf df a + 1 + (i : ℤ), a)) := by
        rw [forecastAccount, List.map_map]
        rfl
      rw [he]
      apply List.Nodup.map ?_ (List.nodup_range h)
      intro i j hij
      have := congrArg Prod.fst hij
      simp only [] at this
      omega
    · refine List.Pairwise.imp ?_ (nodup_sortedAccounts df)
      intro a b hab x hx hx'
      rw [List.mem_map] at hx hx'
      obtain ⟨r, hr, rfl⟩ := hx
      obtain ⟨r', hr', heq⟩ := hx'
      have h1 : r.account = a := forecastAccount_account hr
      have h2 : r'.account = b := forecastAccount_account hr'
      have hsnd := congrArg Prod.snd heq
      simp only [] at hsnd
      exact hab (by rw [← h1, ← hsnd, h2])

/-- Witness for C3 at the scenario ledger with horizon 2. -/
theorem C3_forecast_dates_witness :
    ((run_baseline_forecasting scenarioLedger 2 14 (7/10)).1.filter
        (fun r => r.account == 1)).map (fun r => r.date) =
      (List.range 2).map
        (fun (i : ℕ) => lastDateOf scenarioLedger 1 + 1 + (i : ℤ)) ∧
    ((run_baseline_forecasting scenarioLedger 2 14 (7/10)).1.map
        (fun r => (r.date, r.account))).Nodup := by
  have hc3 := C3_forecast_dates scenarioLedger 2 14 (7/10)
  exact ⟨(hc3.1 1 (by decide)).1, hc3.2⟩

/-- C4 counterexample: with every parameter left to its code default, the
forecaster emits 14 future rows for the single-account scenario ledger, not
60 — the default horizon in `run_baseline_forecasting` is 14. -/
theorem C4_defaults_counterexample :
    (run_baseline_forecasting scenarioLedger).1.length = 14 ∧
      ¬ (run_baseline_forecasting scenarioLedger).1.length = 60 := by
  constructor
  · decide
  · decide

/-- C4 (amended): the entry points carry defaults `rolling_window = 14`,
`alpha = 0.7`, `stress_pct = 0.15`, `confidence_factor = 1.65`,
`quantile = 0.25`, but the forecast default horizon is `14`, not `60` (the
dashboard passes `horizon=60` explicitly); a default-parameter run produces
14 future dates per account. -/
theorem C4_defaults_amended :
    (∀ df : Ledger,
      run_baseline_forecasting df = run_baseline_forecasting df 14 14 (7/10)) ∧
    (∀ df : Ledger,
      structural_cash_estimation df = structural_cash_estimation df (1/4)) ∧
    (∀ (fs : List ForecastRow) (ms : List BehaviorRow) (ss : List StructuralRow)
        (bs : List BalanceRow),
      run_cash_requirement_engine fs ms ss bs =
        run_cash_requirement_engine fs ms ss bs (3/20) (33/20)) ∧
    (run_baseline_forecasting scenarioLedger).1.length = 14 :=
  ⟨fun _ => rfl, fun _ => rfl, fun _ _ _ _ => rfl, by decide⟩

/-- C5: every bank-level forecast row's predicted inflow and outflow are the
exact sums of the account-level predictions on that date, and every
bank-level date is contributed by some account row (dates with no
contributing account are absent). -/
theorem C5_bank_reconciliation :
    ∀ (df : Ledger) (h w : ℕ) (al : ℚ),
      ∀ br ∈ (run_baseline_forecasting df h w al).2,
        br.pred_inflow = (((run_baseline_forecasting df h w al).1.filter
            (fun r => r.date == br.date)).map (fun r => r.pred_inflow)).sum ∧
        br.pred_outflow = (((run_baseline_forecasting df h w al).1.filter
            (fun r => r.date == br.date)).map (fun r => r.pred_outflow)).sum ∧
        ∃ ar ∈ (run_baseline_forecasting df h w al).1, ar.date = br.date := by
  intro df h w al br hbr
  rw [run_baseline_forecasting_snd, bankAggregate_eq] at hbr
  obtain ⟨d, hd, rfl⟩ := List.mem_map.mp hbr
  refine ⟨rfl, rfl, ?_⟩
  rw [mem_sortBy, List.mem_dedup, List.mem_map] at hd
  obtain ⟨ar, har, hard⟩ := hd
  exact ⟨ar, har, hard⟩

/-- Witness for C5 at the scenario ledger with horizon 1. -/
theorem C5_bank_reconciliation_witness :
    (bankForecastRowOf (run_baseline_forecasting scenarioLedger 1).1 14).pred_outflow =
      (((run_baseline_forecasting scenarioLedger 1).1.filter
          (fun r => r.date ==
            (bankForecastRowOf (run_baseline_forecasting scenarioLedger 1).1 14).date)).map
        (fun r => r.pred_outflow)).sum ∧
    ∃ ar ∈ (run_baseline_forecasting scenarioLedger 1).1,
      ar.date =
        (bankForecastRowOf (run_baseline_forecasting scenarioLedger 1).1 14).date := by
  have hmem : bankForecastRowOf (run_baseline_forecasting scenarioLedger 1).1 14 ∈
      (run_baseline_forecasting scenarioLedger 1).2 := by
    rw [run_baseline_forecasting_snd, bankAggregate_eq]
    apply List.mem_map_of_mem
    rw [mem_sortBy, List.mem_dedup]
    decide
  have hc5 := C5_bank_reconciliation scenarioLedger 1 14 (7/10) _ hmem
  exact ⟨hc5.2.1, hc5.2.2⟩

/-- C6: all account-level and bank-level predicted inflows and outflows are
nonnegative, for any input ledger — predictions are clamped at 0 at
construction, and the bank rows are sums of clamped values. -/
theorem C6_nonneg :
    ∀ (df : Ledger) (h w : ℕ) (al : ℚ),
      (∀ r ∈ (run_baseline_forecasting df h w al).1,
        0 ≤ r.pred_inflow ∧ 0 ≤ r.pred_outflow) ∧
      (∀ br ∈ (run_baseline_forecasting df h w al).2,
        0 ≤ br.pred_inflow ∧ 0 ≤ br.pred_outflow) := by
  intro df h w al
  have haccount : ∀ r ∈ (run_baseline_forecasting df h w al).1,
      0 ≤ r.pred_inflow ∧ 0 ≤ r.pred_outflow := by
    intro r hr
    rw [run_baseline_forecasting_fst, List.mem_flatMap] at hr
    obtain ⟨a, _, hra⟩ := hr
    exact forecastAccount_pred_nonneg hra
  refine ⟨haccount, ?_⟩
  intro br hbr
  rw [run_baseline_forecasting_snd, bankAggregate_eq] at hbr
  obtain ⟨d, _, rfl⟩ := List.mem_map.mp hbr
  have hfields := bankForecastRowOf_fields
    ((sortedAccounts df).flatMap (forecastAccount df h w al)) d
  constructor
  · rw [hfields.2.1]
    apply List.sum_nonneg
    intro x hx
    rw [List.mem_map] at hx
    obtain ⟨r, hr, rfl⟩ := hx
    exact (haccount r (List.mem_of_mem_filter hr)).1
  · rw [hfields.2.2]
    apply List.sum_nonneg
    intro x hx
    rw [List.mem_map] at hx
    obtain ⟨r, hr, rfl⟩ := hx
    exact (haccount r (List.mem_of_mem_filter hr)).2

/-- Witness for C6 at the scenario ledger with horizon 1. -/
theorem C6_nonneg_witness :
    (0 ≤ (forecastRowAt scenarioLedger 14 (7/10) 1 0).pred_inflow ∧
      0 ≤ (forecastRowAt scenarioLedger 14 (7/10) 1 0).pred_outflow) ∧
    (0 ≤ (bankForecastRowOf (run_baseline_forecasting scenarioLedger 1).1 14).pred_inflow ∧
      0 ≤ (bankForecastRowOf (run_baseline_forecasting scenarioLedger 1).1 14).pred_outflow) := by
  have hc6 := C6_nonneg scenarioLedger 1 14 (7/10)
  constructor
  · apply hc6.1
    rw [run_baseline_forecasting_fst, scenario_accounts]
    simp only [List.flatMap_cons, List.flatMap_nil, List.append_nil]
    rw [forecastAccount]
    exact List.mem_map_of_mem _ (by decide)
  · apply hc6.2
    rw [run_baseline_forecasting_snd, bankAggregate_eq]
    apply List.mem_map_of_mem
    rw [mem_sortBy, List.mem_dedup]
    decide

theorem structuralRowOf_account (q : ℚ) (df : Ledger) (a : ℕ) :
    (structuralRowOf q df a).account = a := rfl

theorem structuralRowOf_frac (q : ℚ) (df : Ledger) (a : ℕ) :
    (structuralRowOf q df a).structural_frac =
      (if 0 < meanQ ((groupOf df a).map (fun r => r.inflow))
       then quantileQ ((groupOf df a).map (fun r => r.inflow)) q /
         meanQ ((groupOf df a).map (fun r => r.inflow))
       else 0) := rfl

theorem find?_metrics_mem {df : Ledger} {a : ℕ} (ha : a ∈ sortedAccounts df) :
    (account_behavior_metrics df).find? (fun m => m.account == a) =
      some (behaviorRowOf df a) := by
  rw [account_behavior_metrics]
  exact find?_map_key (sortedAccounts df) (behaviorRowOf df)
    (fun (m : BehaviorRow) => m.account) (fun _ => rfl) ha

theorem find?_metrics_none {df : Ledger} {a : ℕ} (ha : a ∉ sortedAccounts df) :
    (account_behavior_metrics df).find? (fun m => m.account == a) = none := by
  rw [account_behavior_metrics]
  exact find?_map_key_none (sortedAccounts df) (behaviorRowOf df)
    (fun (m : BehaviorRow) => m.account) (fun _ => rfl) ha

/-- C7: every behavior-metrics row has `StabilityScore = 1/(1+CV) ∈ (0, 1]`
whenever the outflow coefficient of variation is defined, and
`StabilityScore = 0` when `AvgOutflow = 0` (CV undefined). -/
theorem C7_stability_score :
    ∀ df : Ledger, ∀ m ∈ account_behavior_metrics df,
      (∀ c : ℝ, m.outflow_cv = some c →
        m.stability_score = 1 / (1 + c) ∧ 0 < m.stability_score ∧
          m.stability_score ≤ 1) ∧
      (m.avg_outflow = 0 → m.outflow_cv = none ∧ m.stability_score = 0) := by
  intro df m hm
  rw [account_behavior_metrics] at hm
  obtain ⟨a, _, rfl⟩ := List.mem_map.mp hm
  constructor
  · intro c hc
    have hc0 : 0 ≤ c := behaviorRowOf_cv_nonneg hc
    have hstab : (behaviorRowOf df a).stability_score = 1 / (1 + c) := by
      rw [behaviorRowOf_stability_match, hc]
    refine ⟨hstab, ?_, ?_⟩
    · rw [hstab]
      exact div_pos one_pos (by linarith)
    · rw [hstab, div_le_one (by linarith)]
      linarith
  · intro havg
    have havg' : meanQ ((groupOf df a).map (fun r => r.outflow)) = 0 := by
      rw [← behaviorRowOf_avg_outflow df a]
      exact havg
    have hcv : (behaviorRowOf df a).outflow_cv = none := by
      rw [behaviorRowOf_cv_eq, if_neg (by rw [havg']; exact lt_irrefl 0)]
    exact ⟨hcv, by rw [behaviorRowOf_stability_match, hcv]⟩

theorem scenario_avg_out :
    meanQ ((groupOf scenarioLedger 1).map (fun r => r.outflow)) = 800 := by
  apply meanQ_const (by decide)
  intro x hx
  rw [List.mem_map] at hx
  obtain ⟨r, hr, rfl⟩ := hx
  exact scenario_outflow_const r (mem_groupOf.mp hr).1

theorem scenario_cv : (behaviorRowOf scenarioLedger 1).outflow_cv = some 0 := by
  rw [behaviorRowOf_cv_eq, if_pos (by rw [scenario_avg_out]; norm_num)]
  rw [show sampleStd ((groupOf scenarioLedger 1).map (fun r => r.outflow)) =
      some 0 from by rw [← behaviorRowOf_vol]; exact scenario_vol]
  simp

/-- Witness for C7 at the scenario account, whose CV is a defined 0. -/
theorem C7_stability_score_witness :
    (behaviorRowOf scenarioLedger 1).stability_score = 1 / (1 + 0) ∧
    0 < (behaviorRowOf scenarioLedger 1).stability_score ∧
    (behaviorRowOf scenarioLedger 1).stability_score ≤ 1 :=
  (C7_stability_score scenarioLedger (behaviorRowOf scenarioLedger 1)
    (by rw [scenario_metrics]; exact List.mem_singleton_self _)).1 0 scenario_cv

/-- A two-row account with zero in- and outflows, for the sentinel cases. -/
def zeroLedger : Ledger :=
  [{ date := 0, account := 4, inflow := 0, outflow := 0, balance := 0 },
   { date := 1, account := 4, inflow := 0, outflow := 0, balance := 0 }]

/-- C8: a zero denominator in the ratio computations never errors and never
propagates an undefined value into the engine's joined output: a zero
`AvgOutflow` makes the CV the explicit `none` sentinel (with
`StabilityScore 0`), a zero mean inflow makes `StructuralRatio` 0, and every
engine row's joined volatility is either a defined metric value or the 0
fill — never undefined. -/
theorem C8_no_nan_propagation :
    ∀ df : Ledger,
      (∀ m ∈ account_behavior_metrics df, m.avg_outflow = 0 →
        m.outflow_cv = none ∧ m.stability_score = 0) ∧
      (∀ t ∈ structural_cash_estimation df,
        meanQ ((groupOf df t.account).map (fun r => r.inflow)) = 0 →
          t.structural_frac = 0) ∧
      (∀ (fs : List ForecastRow) (ss : List StructuralRow)
          (bs : List BalanceRow) (s z : ℚ),
        ∀ r ∈ (run_cash_requirement_engine fs (account_behavior_metrics df)
            ss bs s z).1,
          (∃ m ∈ account_behavior_metrics df, m.account = r.account ∧
            m.outflow_volatility = some r.outflow_volatility) ∨
          r.outflow_volatility = 0) := by
  intro df
  refine ⟨?_, ?_, ?_⟩
  · intro m hm havg
    rw [account_behavior_metrics] at hm
    obtain ⟨a, _, rfl⟩ := List.mem_map.mp hm
    have havg' : meanQ ((groupOf df a).map (fun r => r.outflow)) = 0 := by
      rw [← behaviorRowOf_avg_outflow df a]
      exact havg
    have hcv : (behaviorRowOf df a).outflow_cv = none := by
      rw [behaviorRowOf_cv_eq, if_neg (by rw [havg']; exact lt_irrefl 0)]
    exact ⟨hcv, by rw [behaviorRowOf_stability_match, hcv]⟩
  · intro t ht hmean
    rw [structural_cash_estimation] at ht
    obtain ⟨a, _, rfl⟩ := List.mem_map.mp ht
    rw [structuralRowOf_account] at hmean
    rw [structuralRowOf_frac, if_neg (by rw [hmean]; exact lt_irrefl 0)]
  · intro fs ss bs s z r hr
    rw [run_engine_fst] at hr
    obtain ⟨fr, _, rfl⟩ := List.mem_map.mp hr
    have hjoin :=
      (requirementRowOf_joins (account_behavior_metrics df) ss bs s z fr).1
    rcases hfind : (account_behavior_metrics df).find?
        (fun m => m.account == fr.account) with _ | m
    · right
      rw [hjoin, hfind]
      rfl
    · have hmem := List.mem_of_find?_eq_some hfind
      have hkeyb := List.find?_some hfind
      have hkey : m.account = fr.account := beq_iff_eq.mp hkeyb
      rcases hv : m.outflow_volatility with _ | v
      · right
        rw [hjoin, hfind]
        show (m.outflow_volatility).getD 0 = 0
        rw [hv]
        rfl
      · left
        have hvol : (requirementRowOf (account_behavior_metrics df) ss bs s z
            fr).outflow_volatility = v := by
          rw [hjoin, hfind]
          show (m.outflow_volatility).getD 0 = v
          rw [hv]
          rfl
        refine ⟨m, hmem, ?_, ?_⟩
        · rw [hkey]
          rfl
        · rw [hv, hvol]

/-- Witness for C8 at the zero-outflow account and a forecast row with no
metrics match. -/
theorem C8_no_nan_propagation_witness :
    ((behaviorRowOf zeroLedger 4).outflow_cv = none ∧
      (behaviorRowOf zeroLedger 4).stability_score = 0) ∧
    (structuralRowOf (1/4) zeroLedger 4).structural_frac = 0 ∧
    ((∃ m ∈ account_behavior_metrics zeroLedger,
        m.account = (requirementRowOf (account_behavior_metrics zeroLedger)
          [] [] 0 0 w1fr).account ∧
        m.outflow_volatility = some (requirementRowOf
          (account_behavior_metrics zeroLedger) [] [] 0 0 w1fr).outflow_volatility) ∨
      (requirementRowOf (account_behavior_metrics zeroLedger) [] [] 0 0
        w1fr).outflow_volatility = 0) := by
  have hc8 := C8_no_nan_propagation zeroLedger
  have hacc : sortedAccounts zeroLedger = [4] := by decide
  have hzero : ∀ x ∈ (groupOf zeroLedger 4).map (fun r => r.outflow), x = 0 := by
    decide
  have hzero' : ∀ x ∈ (groupOf zeroLedger 4).map (fun r => r.inflow), x = 0 := by
    decide
  refine ⟨?_, ?_, ?_⟩
  · apply hc8.1
    · rw [account_behavior_metrics, hacc]
      exact List.mem_singleton_self _
    · rw [behaviorRowOf_avg_outflow]
      exact meanQ_const (by decide) hzero
  · apply hc8.2.1
    · rw [structural_cash_estimation, hacc]
      exact List.mem_singleton_self _
    · rw [structuralRowOf_account]
      exact meanQ_const (by decide) hzero'
  · apply hc8.2.2 [w1fr] [] [] 0 0
    rw [run_engine_fst]
    exact List.mem_map_of_mem _ (List.mem_singleton_self w1fr)

/-- C9: the engine left-joins forecasts to metrics, structural estimates and
balances by `Account_ID` and never fails on a missing match — it emits one
output row per forecast row, fills missing `Outflow_Volatility`,
`Structural_Inflow` and `Balance_INR` with 0, and computes the row
normally. -/
theorem C9_left_join_fill :
    ∀ (fs : List ForecastRow) (ms : List BehaviorRow) (ss : List StructuralRow)
      (bs : List BalanceRow) (s z : ℚ),
      (run_cash_requirement_engine fs ms ss bs s z).1.length = fs.length ∧
      (∀ r ∈ (run_cash_requirement_engine fs ms ss bs s z).1,
        ((∀ m ∈ ms, m.account ≠ r.account) → r.outflow_volatility = 0) ∧
        ((∀ t ∈ ss, t.account ≠ r.account) → r.structural_inflow = 0) ∧
        ((∀ b ∈ bs, b.account ≠ r.account) → r.balance = 0) ∧
        r.required_cash = (r.pred_outflow : ℝ) + r.safety_buffer +
          (r.stress_buffer : ℝ) - (r.reliable_inflow : ℝ) ∧
        r.funding_gap = r.required_cash - (r.balance : ℝ)) := by
  intro fs ms ss bs s z
  constructor
  · rw [run_engine_fst, List.length_map]
  · intro r hr
    rw [run_engine_fst] at hr
    obtain ⟨fr, _, rfl⟩ := List.mem_map.mp hr
    have hjoins := requirementRowOf_joins ms ss bs s z fr
    have hforms := requirementRowOf_formulas ms ss bs s z fr
    refine ⟨?_, ?_, ?_, hforms.2.2.2.1, hforms.2.2.2.2⟩
    · intro hnone
      have hfind : ms.find? (fun m => m.account == fr.account) = none := by
        rw [List.find?_eq_none]
        intro m hm hbeq
        exact hnone m hm (beq_iff_eq.mp hbeq)
      rw [hjoins.1, hfind]
      rfl
    · intro hnone
      have hfind : ss.find? (fun t => t.account == fr.account) = none := by
        rw [List.find?_eq_none]
        intro t ht hbeq
        exact hnone t ht (beq_iff_eq.mp hbeq)
      rw [hjoins.2.1, hfind]
      rfl
    · intro hnone
      have hfind : bs.find? (fun b => b.account == fr.account) = none := by
        rw [List.find?_eq_none]
        intro b hb hbeq
        exact hnone b hb (beq_iff_eq.mp hbeq)
      rw [hjoins.2.2, hfind]
      rfl

/-- Witness for C9: a forecast row with empty metric, structural and balance
tables joins to zeros and still yields a row. -/
theorem C9_left_join_fill_witness :
    (run_cash_requirement_engine [w1fr] [] [] [] 0 0).1.length = [w1fr].length ∧
    (requirementRowOf [] [] [] 0 0 w1fr).outflow_volatility = 0 ∧
    (requirementRowOf [] [] [] 0 0 w1fr).structural_inflow = 0 ∧
    (requirementRowOf [] [] [] 0 0 w1fr).balance = 0 := by
  have hc9 := C9_left_join_fill [w1fr] [] [] [] 0 0
  have hmem : requirementRowOf [] [] [] 0 0 w1fr ∈
      (run_cash_requirement_engine [w1fr] [] [] [] 0 0).1 := by
    rw [run_engine_fst]
    exact List.mem_map_of_mem _ (List.mem_singleton_self w1fr)
  have hr := hc9.2 _ hmem
  exact ⟨hc9.1, hr.1 (by intro m hm; cases hm), hr.2.1 (by intro t ht; cases ht),
    hr.2.2.1 (by intro b hb; cases hb)⟩

/-- A ledger whose only account has exactly one observation. -/
def singleLedger : Ledger :=
  [{ date := 0, account := 7, inflow := 100, outflow := 50, balance := 900 }]

/-- A forecast row for the single-observation account. -/
def w7fr : ForecastRow :=
  { date := 1, account := 7, pred_inflow := 100, pred_outflow := 50,
    model := "BASELINE" }

/-- C10: an account with exactly one historical row has an undefined sample
standard deviation, so the metrics table reports `Outflow_Volatility` as the
NaN sentinel (`none`, not 0) and `StabilityScore` as 0, while the engine's
fill turns that volatility into 0 and makes the account's `SafetyBuffer`
exactly 0. -/
theorem C10_single_point_volatility :
    ∀ (df : Ledger) (a : ℕ), (groupOf df a).length = 1 →
      (∀ m ∈ account_behavior_metrics df, m.account = a →
        m.outflow_volatility = none ∧ m.stability_score = 0) ∧
      (∀ (fs : List ForecastRow) (ss : List StructuralRow)
          (bs : List BalanceRow) (s z : ℚ),
        ∀ r ∈ (run_cash_requirement_engine fs (account_behavior_metrics df)
            ss bs s z).1,
          r.account = a → r.outflow_volatility = 0 ∧ r.safety_buffer = 0) := by
  intro df a hlen
  have hstd : sampleStd ((groupOf df a).map (fun r => r.outflow)) = none := by
    simp only [sampleStd]
    rw [sampleVar_none (by rw [List.length_map, hlen]; omega)]
    rfl
  have hvol_none : (behaviorRowOf df a).outflow_volatility = none := by
    rw [behaviorRowOf_vol]
    exact hstd
  constructor
  · intro m hm hma
    rw [account_behavior_metrics] at hm
    obtain ⟨b, _, rfl⟩ := List.mem_map.mp hm
    have hba : b = a := hma
    subst hba
    have hcv : (behaviorRowOf df b).outflow_cv = none := by
      rw [behaviorRowOf_cv_eq]
      by_cases hp : 0 < meanQ ((groupOf df b).map (fun r => r.outflow))
      · rw [if_pos hp, hstd]
        rfl
      · rw [if_neg hp]
    exact ⟨hvol_none, by rw [behaviorRowOf_stability_match, hcv]⟩
  · intro fs ss bs s z r hr hra
    rw [run_engine_fst] at hr
    obtain ⟨fr, _, rfl⟩ := List.mem_map.mp hr
    have hfra : fr.account = a := hra
    have hvol : (requirementRowOf (account_behavior_metrics df) ss bs s z
        fr).outflow_volatility = 0 := by
      rw [(requirementRowOf_joins (account_behavior_metrics df) ss bs s z fr).1,
        hfra]
      by_cases hmem : a ∈ sortedAccounts df
      · rw [find?_metrics_mem hmem]
        show ((behaviorRowOf df a).outflow_volatility).getD 0 = 0
        rw [hvol_none]
        rfl
      · rw [find?_metrics_none hmem]
        rfl
    refine ⟨hvol, ?_⟩
    rw [(requirementRowOf_formulas (account_behavior_metrics df) ss bs s z fr).1,
      hvol, zero_mul]

/-- Witness for C10 at the one-row ledger. -/
theorem C10_single_point_volatility_witness :
    ((behaviorRowOf singleLedger 7).outflow_volatility = none ∧
      (behaviorRowOf singleLedger 7).stability_score = 0) ∧
    ((requirementRowOf (account_behavior_metrics singleLedger) [] [] 0 0
        w7fr).outflow_volatility = 0 ∧
      (requirementRowOf (account_behavior_metrics singleLedger) [] [] 0 0
        w7fr).safety_buffer = 0) := by
  have hc10 := C10_single_point_volatility singleLedger 7 (by decide)
  constructor
  · apply hc10.1
    · rw [account_behavior_metrics,
        show sortedAccounts singleLedger = [7] from by decide]
      exact List.mem_singleton_self _
    · rfl
  · apply hc10.2 [w7fr] [] [] 0 0
    · rw [run_engine_fst]
      exact List.mem_map_of_mem _ (List.mem_singleton_self w7fr)
    · rfl

end CashFlow

